import Mathlib

set_option maxRecDepth 8000

/-!
Verification of the caringcaribou UDS module against its specification.

The development shallowly embeds the two source files:
* `tool/lib/iso14229_1.py` — the ISO-14229-1 protocol client and its code tables;
* `tool/modules/uds.py` — the discovery and enumeration scanners.

Bytes and identifiers are modelled as `Nat` (Python integers are unbounded;
masks are explicit).  Python `None` becomes `Option.none`; a Python exception
(`ValueError`, `TypeError`, `IndexError`) becomes an `Except.error` or an
`Option.none` result, as noted at each definition.  Real time is abstracted:
each receive window is modelled by the finite list of messages obtained from
the bus before the window elapses, and unbounded `while` loops carry an
explicit iteration budget (`fuel`).  The CAN transport and bus, which live
outside the two source files, are oracles: functions from a call index to the
messages that call observes.
-/

namespace Caribou

/-! ### Code tables (iso14229_1.py) -/

/-- NegativeResponseCodes.SUB_FUNCTION_NOT_SUPPORTED -/
def SUB_FUNCTION_NOT_SUPPORTED : Nat := 0x12

/-- NegativeResponseCodes.REQUEST_OUT_OF_RANGE -/
def REQUEST_OUT_OF_RANGE : Nat := 0x31

/-- NegativeResponseCodes.SECURITY_ACCESS_DENIED -/
def SECURITY_ACCESS_DENIED : Nat := 0x33

/-- NegativeResponseCodes.REQUEST_CORRECTLY_RECEIVED_RESPONSE_PENDING -/
def REQUEST_CORRECTLY_RECEIVED_RESPONSE_PENDING : Nat := 0x78

/-- Constants.NR_SI, the negative-response service identifier. -/
def NR_SI : Nat := 0x7F

/-- ServiceID.READ_DATA_BY_IDENTIFIER -/
def READ_DATA_BY_IDENTIFIER : Nat := 0x22

/-- ServiceID.ROUTINE_CONTROL -/
def ROUTINE_CONTROL : Nat := 0x31

/-! ### DiagnosticSessionType.is_valid_session (iso14229_1.py lines 218-234)

The Python method strips the suppress-positive-response bit with
`sub_function = 0x7f & sub_function` and then compares with `is` against the
four fixed session constants (CPython caches small integers, so `is` on values
in 0..127 behaves as equality) and with `<=`/`>=` against the manufacturer and
supplier range bounds. -/

def is_valid_session (sub_function : Nat) : Bool :=
  let s := 0x7F &&& sub_function
  s == 0x01 || s == 0x02 || s == 0x03 || s == 0x04 ||
    (decide (s ≤ 0x5F) && decide (0x40 ≤ s)) ||
    (decide (s ≤ 0x7E) && decide (0x60 ≤ s))

/-! ### SecurityAccess.RequestSeedOrSendKey (iso14229_1.py lines 301-322) -/

def is_valid_request_seed_level (sub_function : Nat) : Bool :=
  let value := sub_function &&& 0x7F
  let valid_interval := decide (0x01 ≤ value) && decide (value ≤ 0x41)
  let is_odd := value % 2 == 1
  valid_interval && is_odd

def is_valid_send_key_level (sub_function : Nat) : Bool :=
  let value := sub_function &&& 0x7F
  let valid_interval := decide (0x02 ≤ value) && decide (value ≤ 0x42)
  let is_even := value % 2 == 0
  valid_interval && is_even

def get_send_key_for_request_seed (seed : Nat) : Nat := seed + 1

/-! ### Iso14229_1.get_service_response_id (iso14229_1.py lines 347-355) -/

def get_service_response_id (identifier : Nat) : Nat := identifier + 0x40

/-! ### Iso14229_1.is_positive_response (iso14229_1.py lines 397-408) -/

def is_positive_response (response : Option (List Nat)) : Bool :=
  match response with
  | none => false
  | some r => decide (0 < r.length) && r.getD 0 0 != NR_SI

/-! ### Iso14229_1.receive_response (iso14229_1.py lines 375-395)

The loop repeatedly calls `self.tp.indication(wait_window)`; the i-th call is
modelled by `ind i`.  The timeout check at the top of the loop is modelled by
`fuel`: when the budget is exhausted the function returns `none`, exactly as
the Python code returns `None` once the elapsed time exceeds `wait_window`.
The Python loop `continue`s (absorbing the message) only when the response is
not `None`, has length strictly greater than 3, starts with `NR_SI` and
carries NRC 0x78 in its third byte; any other response (including `None`)
breaks out of the loop and is returned. -/

def absorbed_as_pending (response : Option (List Nat)) : Bool :=
  match response with
  | none => false
  | some r =>
      decide (3 < r.length) && r.getD 0 0 == NR_SI &&
        r.getD 2 0 == REQUEST_CORRECTLY_RECEIVED_RESPONSE_PENDING

def receive_response (fuel : Nat) (ind : Nat → Option (List Nat)) (i : Nat) :
    Option (List Nat) :=
  match fuel with
  | 0 => none
  | fuel + 1 =>
      let response := ind i
      if absorbed_as_pending response then receive_response fuel ind (i + 1)
      else response

/-! ### Iso14229_1.read_data_by_identifier (iso14229_1.py lines 410-428)

The request is built in an array of size `2 * num_dids + 1`: byte 0 is the
service id and bytes `2i+1`, `2i+2` hold the i-th identifier big-endian.
`recv` is the oracle for `receive_response`'s outcome; the first component of
the result is the list of requests handed to `tp.send_request`. -/

def read_data_by_identifier_request (identifier : List Nat) : List Nat :=
  READ_DATA_BY_IDENTIFIER ::
    (identifier.map (fun d => [(d >>> 8) &&& 0xFF, d &&& 0xFF])).flatten

def read_data_by_identifier (recv : Option (List Nat)) (identifier : List Nat) :
    List (List Nat) × Option (List Nat) :=
  if 0 < identifier.length then
    ([read_data_by_identifier_request identifier], recv)
  else
    ([], some [])

/-! ## Claims about the protocol client -/

/-- C1: `receive_response` never returns a pending-response message.  The
claim FAILS on the code: the absorb condition requires `len(response) > 3`,
but a standard pending response `[0x7F, sid, 0x78]` is exactly 3 bytes long,
so it breaks the loop and is returned to the caller on the very first
iteration.  This theorem evaluates the embedded code at that failing input. -/
theorem receive_response_returns_pending :
    receive_response 5 (fun _ => some [0x7F, 0x10, 0x78]) 0 =
      some [0x7F, 0x10, 0x78] := rfl

/-- C2 (amended): for service identifiers up to 0xBF the response id equals
`(sid + 0x40) mod 256`; the function itself never reduces modulo 256. -/
theorem get_service_response_id_eq (sid : Nat) (h : sid ≤ 0xBF) :
    get_service_response_id sid = (sid + 0x40) % 256 := by
  unfold get_service_response_id
  omega

/-- C2 witness: the amended statement at the concrete input 0x10. -/
theorem get_service_response_id_eq_witness :
    get_service_response_id 0x10 = (0x10 + 0x40) % 256 :=
  get_service_response_id_eq 0x10 (by decide)

/-- C2 counterexample: the claim as stated is false at sid = 0xC0, where the
code returns 0x100 while `(0xC0 + 0x40) mod 256 = 0`. -/
theorem get_service_response_id_claim_cex :
    ¬ (∀ sid : Nat, sid ≤ 0xFF →
        get_service_response_id sid = (sid + 0x40) % 256) := by
  intro h
  have := h 0xC0 (by decide)
  simp [get_service_response_id] at this

/-- C7: a byte is a valid session type iff its low 7 bits lie in
{0x01, 0x02, 0x03, 0x04} ∪ [0x40, 0x5F] ∪ [0x60, 0x7E], and the
suppress-positive-response bit 0x80 is transparent. -/
theorem is_valid_session_spec (s : Nat) (hs : s < 256) :
    (is_valid_session s = true ↔
      ((s &&& 0x7F) = 0x01 ∨ (s &&& 0x7F) = 0x02 ∨ (s &&& 0x7F) = 0x03 ∨
        (s &&& 0x7F) = 0x04 ∨
        (0x40 ≤ (s &&& 0x7F) ∧ (s &&& 0x7F) ≤ 0x5F) ∨
        (0x60 ≤ (s &&& 0x7F) ∧ (s &&& 0x7F) ≤ 0x7E))) ∧
    is_valid_session s = is_valid_session (s ||| 0x80) := by
  revert s
  decide

/-- C7 witness: the property at the concrete byte 0x03. -/
theorem is_valid_session_spec_witness :
    (is_valid_session 0x03 = true ↔
      ((0x03 &&& 0x7F) = 0x01 ∨ (0x03 &&& 0x7F) = 0x02 ∨ (0x03 &&& 0x7F) = 0x03 ∨
        (0x03 &&& 0x7F) = 0x04 ∨
        (0x40 ≤ (0x03 &&& 0x7F) ∧ (0x03 &&& 0x7F) ≤ 0x5F) ∨
        (0x60 ≤ (0x03 &&& 0x7F) ∧ (0x03 &&& 0x7F) ≤ 0x7E))) ∧
    is_valid_session 0x03 = is_valid_session (0x03 ||| 0x80) :=
  is_valid_session_spec 0x03 (by decide)

/-- C9: every valid request-seed level L has a valid send-key level L + 1,
and `get_send_key_for_request_seed` returns exactly L + 1. -/
theorem seed_key_pairing (L : Nat) (hL : L < 256)
    (h : is_valid_request_seed_level L = true) :
    is_valid_send_key_level (L + 1) = true ∧
      get_send_key_for_request_seed L = L + 1 := by
  revert L
  decide

/-- C9 witness: the pairing at the concrete seed level 0x01. -/
theorem seed_key_pairing_witness :
    is_valid_send_key_level (0x01 + 1) = true ∧
      get_send_key_for_request_seed 0x01 = 0x01 + 1 :=
  seed_key_pairing 0x01 (by decide) (by decide)

/-- C10: called with an empty identifier list, `read_data_by_identifier`
sends nothing on the transport and returns the empty list `some []`, which is
distinct from the absence value `none` used for a timed-out response. -/
theorem read_data_by_identifier_empty (recv : Option (List Nat)) :
    read_data_by_identifier recv [] = ([], some []) ∧
      (some ([] : List Nat)) ≠ (none : Option (List Nat)) :=
  ⟨rfl, by simp⟩

/-- C10 witness: the concrete instance with a timed-out transport oracle. -/
theorem read_data_by_identifier_empty_witness :
    read_data_by_identifier none [] = ([], some []) ∧
      (some ([] : List Nat)) ≠ (none : Option (List Nat)) :=
  read_data_by_identifier_empty none

/-! ## uds.py — scan ranges -/

/-- Python `range(a, b)` over integers, ascending and half-open. -/
def pyRange (a b : Int) : List Int :=
  (List.range (b - a).toNat).map (fun i => a + Int.ofNat i)

theorem pyRange_length (a b : Int) : (pyRange a b).length = (b - a).toNat := by
  rw [pyRange, List.length_map, List.length_range]

/-! ### make_did_range (uds.py lines 502-534)

The flag branches accumulate half-open ranges into `id_range` (the printed
banners are dropped).  When an explicit bound is present the code compares
`min_id > max_id` directly; if exactly one bound is `None` that comparison
raises a `TypeError` under Python 3, modelled as an `Except.error`.  When no
explicit bound is given, the final `elif not is_oem and not is_supplier`
replaces `id_range` with the full default range — note that this condition
does not consult `is_safety`. -/

def make_did_range (is_oem is_supplier is_safety : Bool)
    (min_id max_id : Option Int) : Except String (List Int) :=
  let id_range : List Int := []
  let id_range := if is_oem then
      pyRange 0x0100 0xA600 ++ pyRange 0xA800 0xAD00 ++ pyRange 0xB000 0xB200 ++
        pyRange 0xC200 0xC300 ++ pyRange 0xCF00 0xF000
    else id_range
  let id_range := if is_supplier then id_range ++ pyRange 0xF000 0xFF00
    else id_range
  let id_range := if is_safety then
      id_range ++ pyRange 0xF000 0xFF00 ++ pyRange 0xFA19 0xFB00
    else id_range
  if min_id.isSome || max_id.isSome then
    match min_id, max_id with
    | some mn, some mx =>
        if mn > mx then Except.error "MIN greater than MAX"
        else
          let mn := if mn < 0 then 0 else mn
          let mx := if mx > 0xFFFF then 0xFFFF else mx
          Except.ok (id_range ++ pyRange mn (mx + 1))
    | _, _ => Except.error "TypeError comparing None with int"
  else if !is_oem && !is_supplier then
    Except.ok (pyRange 0x0 0x10000)
  else
    Except.ok id_range

/-- The range the claim (and the code's own banner and caller docstring)
prescribe for the safety preset: [0xFA00, 0xFA0F] ∪ [0xFA19, 0xFAFF]. -/
def did_safety_range_claim : List Int :=
  pyRange 0xFA00 0xFA10 ++ pyRange 0xFA19 0xFB00

/-- C3: with only the safety flag set and no explicit bounds, `make_did_range`
is claimed to produce exactly [0xFA00, 0xFA0F] ∪ [0xFA19, 0xFAFF].  The code
instead returns the full default range [0x0000, 0xFFFF]: the safety branch
chains the supplier range 0xF000-0xFEFF (not 0xFA00-0xFA0F) and the final
`elif`, which only checks the oem and supplier flags, then discards the
accumulated ranges entirely. -/
theorem make_did_range_safety_bug :
    make_did_range false false true none none = Except.ok (pyRange 0x0 0x10000) ∧
      make_did_range false false true none none ≠ Except.ok did_safety_range_claim := by
  refine ⟨rfl, fun h => ?_⟩
  have h3 : pyRange 0x0 0x10000 = did_safety_range_claim :=
    Except.ok.inj (show Except.ok (pyRange 0x0 0x10000) =
      Except.ok did_safety_range_claim from h)
  have hlen := congrArg List.length h3
  simp only [did_safety_range_claim, List.length_append, pyRange_length] at hlen
  omega

/-! ### scan_routine_control (uds.py lines 536-612)

The transport plumbing (`uds.routine_control`, which sends
`[0x31, 0x00, rid_hi, rid_lo, 1,1,1,1,1,1,1,1,1,1]` and waits) is abstracted
by the oracle `ecu`, giving for each routine id the response that the probe
(after its single retry on `None`) obtains.  The classification of that
response is the code under verification.  A Python `IndexError` from indexing
a too-short response is modelled as `none`. -/

def scan_routine_control_step (routine_id : Nat) (response : Option (List Nat)) :
    Option (List (Nat × String)) :=
  match response with
  | none => some []
  | some r =>
      if is_positive_response (some r) then
        if 3 < r.length then
          some [((r.getD 2 0 <<< 8) ||| r.getD 3 0, "?? Success ?? how")]
        else none
      else
        if 1 < r.length then
          if r.getD 1 0 == ROUTINE_CONTROL then
            if 2 < r.length then
              if r.getD 2 0 == REQUEST_OUT_OF_RANGE then some []
              else if r.getD 2 0 == SUB_FUNCTION_NOT_SUPPORTED then
                some [(routine_id, "SUPPORTED_NO_SECURITY")]
              else if r.getD 2 0 == SECURITY_ACCESS_DENIED then
                some [(routine_id, "SUPPORTED_SECURITY_ACCESS_DENIED")]
              else some []
            else none
          else some []
        else none

def scan_routine_control (rids : List Nat) (ecu : Nat → Option (List Nat)) :
    Option (List (Nat × String)) :=
  match rids with
  | [] => some []
  | rid :: rest =>
      match scan_routine_control_step rid (ecu rid) with
      | none => none
      | some recs =>
          match scan_routine_control rest ecu with
          | none => none
          | some more => some (recs ++ more)

/-- C6: classification of the replies to a routine-control probe.  A negative
reply `[0x7F, 0x31, 0x12]` records `(rid, SUPPORTED_NO_SECURITY)`; with NRC
0x33 it records `(rid, SUPPORTED_SECURITY_ACCESS_DENIED)`; with NRC 0x31
nothing is recorded; and a positive reply records an entry carrying the
"?? Success ?? how" anomaly marker. -/
theorem scan_routine_control_classification (rid : Nat)
    (ecu : Nat → Option (List Nat)) :
    (ecu rid = some [0x7F, 0x31, 0x12] →
      scan_routine_control [rid] ecu = some [(rid, "SUPPORTED_NO_SECURITY")]) ∧
    (ecu rid = some [0x7F, 0x31, 0x33] →
      scan_routine_control [rid] ecu =
        some [(rid, "SUPPORTED_SECURITY_ACCESS_DENIED")]) ∧
    (ecu rid = some [0x7F, 0x31, 0x31] →
      scan_routine_control [rid] ecu = some []) ∧
    (∀ r, ecu rid = some r → is_positive_response (some r) = true →
      3 < r.length →
      scan_routine_control [rid] ecu =
        some [((r.getD 2 0 <<< 8) ||| r.getD 3 0, "?? Success ?? how")]) := by
  refine ⟨fun h => ?_, fun h => ?_, fun h => ?_, fun r h hpos hlen => ?_⟩
  · simp [scan_routine_control, scan_routine_control_step, h,
      is_positive_response, NR_SI, ROUTINE_CONTROL, REQUEST_OUT_OF_RANGE,
      SUB_FUNCTION_NOT_SUPPORTED, SECURITY_ACCESS_DENIED]
  · simp [scan_routine_control, scan_routine_control_step, h,
      is_positive_response, NR_SI, ROUTINE_CONTROL, REQUEST_OUT_OF_RANGE,
      SUB_FUNCTION_NOT_SUPPORTED, SECURITY_ACCESS_DENIED]
  · simp [scan_routine_control, scan_routine_control_step, h,
      is_positive_response, NR_SI, ROUTINE_CONTROL, REQUEST_OUT_OF_RANGE,
      SUB_FUNCTION_NOT_SUPPORTED, SECURITY_ACCESS_DENIED]
  · simp [scan_routine_control, scan_routine_control_step, h, hpos, hlen]

/-- C6 witness: the spec's mock scenario entry for rid 0x0203, whose reply
`[0x7F, 0x31, 0x12]` yields the SUPPORTED_NO_SECURITY record. -/
theorem scan_routine_control_classification_witness :
    scan_routine_control [0x0203] (fun _ => some [0x7F, 0x31, 0x12]) =
      some [(0x0203, "SUPPORTED_NO_SECURITY")] :=
  (scan_routine_control_classification 0x0203
    (fun _ => some [0x7F, 0x31, 0x12])).1 rfl

/-! ## uds_discovery (uds.py lines 106-240)

The scanner is modelled as a state machine over an abstract bus.  A CAN
message carries an arbitration id and its data bytes.  Each call of
`tp.transmit` is followed by a listen window; the messages `tp.bus.recv`
yields inside the n-th window (counting every transmit, including the
verification re-probes) are the oracle value `bus n`, and the window closing
is the end of that list.  `auto_blacklist` (lib/can_actions.py, outside the
two source files) is abstracted by the id set `auto_ids` it would return; it
is consulted only when the defaulted duration is positive.  The transmit log
records the arbitration id of every probe in order.  The Python `while` loop
over `send_arbitration_id` can be re-wound by the verification step, so it
carries an explicit iteration budget `fuel`. -/

structure Msg where
  arbitration_id : Int
  data : List Nat

/-- Modelled from the spec: `ARBITRATION_ID_MIN` comes from lib/constants.py,
which is not among the source files; §4.3 gives the default range 0x000-0x7FF. -/
def ARBITRATION_ID_MIN : Int := 0x0

/-- Modelled from the spec: `ARBITRATION_ID_MAX` comes from lib/constants.py,
which is not among the source files; §4.3 gives the default range 0x000-0x7FF. -/
def ARBITRATION_ID_MAX : Int := 0x7FF

/-- Modelled from the spec: `ARBITRATION_ID_MAX_EXTENDED` comes from
lib/constants.py, which is not among the source files; §4.3 and §9 give
0x1FFF_FFFF for the extended default. -/
def ARBITRATION_ID_MAX_EXTENDED : Int := 0x1FFFFFFF

/-- The local `is_valid_response` of uds_discovery: at least two data bytes
and `data[1]` in DiagnosticSessionControl.valid_responses = [0x7F, 0x50]. -/
def is_valid_response (m : Msg) : Bool :=
  decide (2 ≤ m.data.length) && (m.data.getD 1 0 == 0x7F || m.data.getD 1 0 == 0x50)

structure ScanState where
  send_id : Int
  found : List (Int × Int)
  log : List Int

/-- The ids probed by the verification step,
`range(send_id, send_id - VERIFICATION_BACKTRACK, -1)` with
VERIFICATION_BACKTRACK = 5: strictly descending from the candidate. -/
def verify_ids (send_id : Int) : List Int :=
  [send_id, send_id - 1, send_id - 2, send_id - 3, send_id - 4]

/-- One verification pass: transmit each id in turn (consuming one bus window
per transmit, starting at window `idx`) and stop at the first id whose window
contains a valid-shape reply.  Returns the verified id (if any) and the list
of ids actually transmitted. -/
def verify_go (bus : Nat → List Msg) : List Int → Nat → Option Int × List Int
  | [], _ => (none, [])
  | vid :: rest, idx =>
      if (bus idx).any is_valid_response then (some vid, [vid])
      else
        ((verify_go bus rest (idx + 1)).1, vid :: (verify_go bus rest (idx + 1)).2)

def verify_backtrack (bus : Nat → List Msg) (idx : Nat) (send_id : Int) :
    Option Int × List Int :=
  verify_go bus (verify_ids send_id) idx

/-- The inner listen loop of uds_discovery, draining one window.  Blacklisted
arbitration ids are skipped before the validity check.  On a qualifying reply
with `verify` set, the verification step runs (appending its transmits to the
log); on success the pair `(verified_id, msg.arbitration_id)` is recorded and
`send_arbitration_id` is rewound to the verified id, on failure the loop
continues.  Without `verify` the pair `(send_id, msg.arbitration_id)` is
recorded directly. -/
def process_msgs (verify : Bool) (blacklist : List Int) (bus : Nat → List Msg) :
    List Msg → ScanState → ScanState
  | [], st => st
  | m :: rest, st =>
      if m.arbitration_id ∈ blacklist then
        process_msgs verify blacklist bus rest st
      else if is_valid_response m then
        if verify then
          match (verify_backtrack bus st.log.length st.send_id).1 with
          | none =>
              process_msgs verify blacklist bus rest
                { st with log := st.log ++ (verify_backtrack bus st.log.length st.send_id).2 }
          | some vid =>
              process_msgs verify blacklist bus rest
                { send_id := vid, found := st.found ++ [(vid, m.arbitration_id)],
                  log := st.log ++ (verify_backtrack bus st.log.length st.send_id).2 }
        else
          process_msgs verify blacklist bus rest
            { st with found := st.found ++ [(st.send_id, m.arbitration_id)] }
      else
        process_msgs verify blacklist bus rest st

/-- The outer `while send_arbitration_id < max_id` loop: increment, transmit
(one log entry, one bus window), drain the window, repeat. -/
def discovery_loop (verify : Bool) (blacklist : List Int) (bus : Nat → List Msg)
    (max_id : Int) : Nat → ScanState → ScanState
  | 0, st => st
  | fuel + 1, st =>
      if st.send_id < max_id then
        discovery_loop verify blacklist bus max_id fuel
          (process_msgs verify blacklist bus (bus st.log.length)
            { st with send_id := st.send_id + 1, log := st.log ++ [st.send_id + 1] })
      else st

/-- Default application for uds_discovery's first three arguments (uds.py
lines 127-139): `min_id` defaults to ARBITRATION_ID_MIN, `max_id` to
ARBITRATION_ID_MAX or, when the defaulted minimum exceeds it, to
ARBITRATION_ID_MAX_EXTENDED, and the auto-blacklist duration to 0. -/
def discovery_defaults (min_id max_id : Option Int)
    (auto_blacklist_duration : Option ℚ) : Int × Int × ℚ :=
  let mn := min_id.getD ARBITRATION_ID_MIN
  let mx := match max_id with
    | some m => m
    | none =>
        if mn ≤ ARBITRATION_ID_MAX then ARBITRATION_ID_MAX
        else ARBITRATION_ID_MAX_EXTENDED
  (mn, mx, auto_blacklist_duration.getD 0)

/-- uds_discovery.  The result is the transmit log paired with either the
`ValueError` (both sanity checks precede every bus access, so the log is then
empty) or the list of found `(request_id, response_id)` pairs. -/
def uds_discovery (fuel : Nat) (min_id max_id : Option Int)
    (blacklist_args : Option (List Int)) (auto_blacklist_duration : Option ℚ)
    (verify : Bool) (auto_ids : List Int) (bus : Nat → List Msg) :
    List Int × Except String (List (Int × Int)) :=
  if (discovery_defaults min_id max_id auto_blacklist_duration).2.1 <
      (discovery_defaults min_id max_id auto_blacklist_duration).1 then
    ([], Except.error "max_id must not be smaller than min_id")
  else if (discovery_defaults min_id max_id auto_blacklist_duration).2.2 < 0 then
    ([], Except.error "auto_blacklist_duration must not be smaller than 0")
  else
    let blacklist :=
      if 0 < (discovery_defaults min_id max_id auto_blacklist_duration).2.2 then
        blacklist_args.getD [] ++ auto_ids
      else blacklist_args.getD []
    let final := discovery_loop verify blacklist bus
      (discovery_defaults min_id max_id auto_blacklist_duration).2.1 fuel
      { send_id := (discovery_defaults min_id max_id auto_blacklist_duration).1 - 1,
        found := [], log := [] }
    (final.log, Except.ok final.found)

/-! ### Supporting lemmas about the discovery state machine -/

theorem process_msgs_no_valid (verify : Bool) (bl : List Int)
    (bus : Nat → List Msg) (msgs : List Msg) (st : ScanState)
    (h : msgs.any is_valid_response = false) :
    process_msgs verify bl bus msgs st = st := by
  induction msgs generalizing st with
  | nil => rfl
  | cons m rest ih =>
    rw [List.any_cons, Bool.or_eq_false_iff] at h
    obtain ⟨h1, h2⟩ := h
    by_cases hbl : m.arbitration_id ∈ bl
    · rw [process_msgs, if_pos hbl]
      exact ih st h2
    · rw [process_msgs, if_neg hbl, if_neg (by simp [h1])]
      exact ih st h2

theorem found_snd_append {bl : List Int} {l : List (Int × Int)} {x a : Int}
    (hl : ∀ p ∈ l, p.2 ∉ bl) (ha : a ∉ bl) :
    ∀ p ∈ l ++ [(x, a)], p.2 ∉ bl := by
  intro p hp
  rcases List.mem_append.1 hp with h | h
  · exact hl p h
  · simp only [List.mem_singleton] at h
    subst h
    exact ha

theorem process_msgs_found_snd (verify : Bool) (bl : List Int)
    (bus : Nat → List Msg) (msgs : List Msg) (st : ScanState)
    (hst : ∀ p ∈ st.found, p.2 ∉ bl) :
    ∀ p ∈ (process_msgs verify bl bus msgs st).found, p.2 ∉ bl := by
  induction msgs generalizing st with
  | nil => exact hst
  | cons m rest ih =>
    by_cases hbl : m.arbitration_id ∈ bl
    · rw [process_msgs, if_pos hbl]
      exact ih st hst
    · by_cases hv : is_valid_response m = true
      · rw [process_msgs, if_neg hbl, if_pos hv]
        cases verify with
        | false =>
          exact ih { st with found := st.found ++ [(st.send_id, m.arbitration_id)] }
            (found_snd_append hst hbl)
        | true =>
          cases hb : (verify_backtrack bus st.log.length st.send_id).1 with
          | none =>
            have := ih
              { st with log := st.log ++ (verify_backtrack bus st.log.length st.send_id).2 }
              hst
            simpa [hb] using this
          | some vid =>
            have := ih
              { send_id := vid, found := st.found ++ [(vid, m.arbitration_id)],
                log := st.log ++ (verify_backtrack bus st.log.length st.send_id).2 }
              (found_snd_append hst hbl)
            simpa [hb] using this
      · rw [process_msgs, if_neg hbl, if_neg hv]
        exact ih st hst

theorem discovery_loop_found_snd (verify : Bool) (bl : List Int)
    (bus : Nat → List Msg) (mx : Int) (fuel : Nat) (st : ScanState)
    (hst : ∀ p ∈ st.found, p.2 ∉ bl) :
    ∀ p ∈ (discovery_loop verify bl bus mx fuel st).found, p.2 ∉ bl := by
  induction fuel generalizing st with
  | zero => exact hst
  | succ n ih =>
    rw [discovery_loop]
    by_cases h : st.send_id < mx
    · rw [if_pos h]
      exact ih _ (process_msgs_found_snd _ _ _ _ _ hst)
    · rw [if_neg h]
      exact hst

theorem verify_go_hit (bus : Nat → List Msg) (vids : List Int) (idx k : Nat)
    (hk : k < vids.length)
    (hfail : ∀ i, i < k → (bus (idx + i)).any is_valid_response = false)
    (hhit : (bus (idx + k)).any is_valid_response = true) :
    verify_go bus vids idx = (some (vids.get ⟨k, hk⟩), vids.take (k + 1)) := by
  induction vids generalizing idx k with
  | nil => exact absurd hk (by simp)
  | cons v rest ih =>
    cases k with
    | zero =>
      rw [verify_go, if_pos (by simpa using hhit)]
      simp
    | succ k' =>
      have h0 : (bus idx).any is_valid_response = false := by
        simpa using hfail 0 (Nat.succ_pos k')
      rw [verify_go, if_neg (by simp [h0])]
      have hfail' : ∀ i, i < k' → (bus (idx + 1 + i)).any is_valid_response = false := by
        intro i hi
        have := hfail (i + 1) (by omega)
        rwa [show idx + (i + 1) = idx + 1 + i by omega] at this
      have hhit' : (bus (idx + 1 + k')).any is_valid_response = true := by
        rwa [show idx + (k' + 1) = idx + 1 + k' by omega] at hhit
      rw [ih (idx + 1) k' (Nat.lt_of_succ_lt_succ hk) hfail' hhit']
      simp

theorem verify_go_fail (bus : Nat → List Msg) (vids : List Int) (idx : Nat)
    (hfail : ∀ i, i < vids.length → (bus (idx + i)).any is_valid_response = false) :
    verify_go bus vids idx = (none, vids) := by
  induction vids generalizing idx with
  | nil => rfl
  | cons v rest ih =>
    have h0 : (bus idx).any is_valid_response = false := by
      simpa using hfail 0 (by simp)
    rw [verify_go, if_neg (by simp [h0])]
    have hfail' : ∀ i, i < rest.length → (bus (idx + 1 + i)).any is_valid_response = false := by
      intro i hi
      have := hfail (i + 1) (by simpa using Nat.succ_lt_succ hi)
      rwa [show idx + (i + 1) = idx + 1 + i by omega] at this
    rw [ih (idx + 1) hfail']

theorem verify_ids_get (s : Int) (k : Nat) (hk : k < (verify_ids s).length) :
    (verify_ids s).get ⟨k, hk⟩ = s - (k : Int) := by
  have hk5 : k < 5 := by simpa [verify_ids] using hk
  interval_cases k <;> simp [verify_ids] <;> rfl

theorem verify_backtrack_hit (bus : Nat → List Msg) (idx : Nat) (s : Int) (k : Nat)
    (hk : k < 5)
    (hfail : ∀ i, i < k → (bus (idx + i)).any is_valid_response = false)
    (hhit : (bus (idx + k)).any is_valid_response = true) :
    verify_backtrack bus idx s = (some (s - (k : Int)), (verify_ids s).take (k + 1)) := by
  have hlen : k < (verify_ids s).length := by simp [verify_ids]; omega
  rw [verify_backtrack, verify_go_hit bus (verify_ids s) idx k hlen hfail hhit,
    verify_ids_get]

theorem verify_backtrack_fail (bus : Nat → List Msg) (idx : Nat) (s : Int)
    (hfail : ∀ i, i < 5 → (bus (idx + i)).any is_valid_response = false) :
    verify_backtrack bus idx s = (none, verify_ids s) := by
  rw [verify_backtrack, verify_go_fail]
  intro i hi
  exact hfail i (by simpa [verify_ids] using hi)

theorem discovery_loop_drain (verify : Bool) (bl : List Int)
    (bus : Nat → List Msg) (mx : Int) (fuel : Nat) (st : ScanState)
    (hle : st.send_id ≤ mx)
    (hfuel : (mx - st.send_id).toNat ≤ fuel)
    (hwin : ∀ j, st.log.length ≤ j → (bus j).any is_valid_response = false) :
    discovery_loop verify bl bus mx fuel st =
      { send_id := mx, found := st.found,
        log := st.log ++ (List.range (mx - st.send_id).toNat).map
          (fun (i : Nat) => st.send_id + 1 + (i : Int)) } := by
  induction fuel generalizing st with
  | zero =>
    have hz : (mx - st.send_id).toNat = 0 := by omega
    have heq : st.send_id = mx := by omega
    rw [discovery_loop, hz, ← heq]
    simp
  | succ n ih =>
    by_cases h : st.send_id < mx
    · rw [discovery_loop, if_pos h,
        process_msgs_no_valid _ _ _ _ _ (hwin _ (le_refl _))]
      rw [ih { st with send_id := st.send_id + 1, log := st.log ++ [st.send_id + 1] }
        (show st.send_id + 1 ≤ mx by omega)
        (show (mx - (st.send_id + 1)).toNat ≤ n by omega)
        (fun j hj => hwin j (by simp at hj; omega))]
      simp only [List.append_assoc]
      congr 1
      have hn : (mx - st.send_id).toNat = (mx - (st.send_id + 1)).toNat + 1 := by
        omega
      rw [hn, List.range_succ_eq_map, List.map_cons, List.map_map]
      simp only [Nat.cast_zero, add_zero, List.cons_append, List.nil_append,
        List.singleton_append]
      congr 1
      congr 1
      apply List.map_congr_left
      intro i _
      simp only [Function.comp_apply]
      push_cast
      ring
    · have heq : st.send_id = mx := by omega
      have hz : (mx - st.send_id).toNat = 0 := by omega
      rw [discovery_loop, if_neg h, hz, ← heq]
      simp

/-! ## Claims about uds_discovery -/

/-- The claim's predicate for C4: no arbitration id occurring in the result —
neither a request id nor a response id — is blacklisted. -/
def discovery_respects_blacklist (bl : List Int) (pairs : List (Int × Int)) : Prop :=
  ∀ p ∈ pairs, p.1 ∉ bl ∧ p.2 ∉ bl

/-- A bus on which probing the single id 0x100 yields a valid-shape
session-control reply from arbitration id 0x200. -/
def busC4 : Nat → List Msg :=
  fun n => if n = 0 then [⟨512, [0x00, 0x50]⟩] else []

/-- C4 (amended): every response id recorded by uds_discovery avoids the
user-supplied blacklist (request ids are never checked against it). -/
theorem uds_discovery_response_not_blacklisted (fuel : Nat)
    (min_id max_id : Option Int) (bl : List Int) (dur : Option ℚ)
    (verify : Bool) (auto_ids : List Int) (bus : Nat → List Msg)
    (pairs : List (Int × Int))
    (hok : (uds_discovery fuel min_id max_id (some bl) dur verify auto_ids bus).2 =
      Except.ok pairs) :
    ∀ p ∈ pairs, p.2 ∉ bl := by
  simp only [uds_discovery] at hok
  split at hok
  · simp at hok
  · split at hok
    · simp at hok
    · simp only [Option.getD_some] at hok
      rw [Except.ok.injEq] at hok
      subst hok
      intro p hp
      have hmain := discovery_loop_found_snd verify
        (if 0 < (discovery_defaults min_id max_id dur).2.2 then bl ++ auto_ids else bl)
        bus (discovery_defaults min_id max_id dur).2.1 fuel
        { send_id := (discovery_defaults min_id max_id dur).1 - 1, found := [], log := [] }
        (by intro q hq; simp at hq) p hp
      by_cases hC : 0 < (discovery_defaults min_id max_id dur).2.2
      · rw [if_pos hC] at hmain
        exact fun contra => hmain (List.mem_append_left _ contra)
      · rwa [if_neg hC] at hmain

/-- C4 witness: the amended property at a concrete run in which the only
reply comes from id 0x200 while 0x2BC is blacklisted. -/
theorem uds_discovery_response_not_blacklisted_witness :
    ((256 : Int), (512 : Int)).2 ∉ [(700 : Int)] :=
  uds_discovery_response_not_blacklisted 2 (some 256) (some 256) [700] none
    false [] busC4 [(256, 512)] rfl (256, 512) (by simp)

/-- C4 counterexample: probing id 0x100 (which IS on the blacklist) records
the pair (0x100, 0x200), so the returned list contains a blacklisted request
id and the claim as stated is false. -/
theorem uds_discovery_blacklist_cex :
    (uds_discovery 2 (some 256) (some 256) (some [256]) none false [] busC4).2 =
      Except.ok [(256, 512)] ∧
    ¬ discovery_respects_blacklist [256] [(256, 512)] := by
  constructor
  · rfl
  · intro h
    have := (h (256, 512) (by simp)).1
    simp at this

/-- C8: uds_discovery raises a ValueError exactly when, after the defaults
are applied, the maximum id is below the minimum or the auto-blacklist
duration is negative; in that case nothing has been transmitted on the bus
(the transmit log is empty). -/
theorem uds_discovery_arg_errors (fuel : Nat) (min_id max_id : Option Int)
    (bl : Option (List Int)) (dur : Option ℚ) (verify : Bool)
    (auto_ids : List Int) (bus : Nat → List Msg) :
    ((∃ e, (uds_discovery fuel min_id max_id bl dur verify auto_ids bus).2 =
        Except.error e) ↔
      ((discovery_defaults min_id max_id dur).2.1 <
          (discovery_defaults min_id max_id dur).1 ∨
        (discovery_defaults min_id max_id dur).2.2 < 0)) ∧
    (((discovery_defaults min_id max_id dur).2.1 <
          (discovery_defaults min_id max_id dur).1 ∨
        (discovery_defaults min_id max_id dur).2.2 < 0) →
      (uds_discovery fuel min_id max_id bl dur verify auto_ids bus).1 = []) := by
  by_cases h1 : (discovery_defaults min_id max_id dur).2.1 <
      (discovery_defaults min_id max_id dur).1
  · constructor
    · simp [uds_discovery, h1]
    · intro _
      simp [uds_discovery, h1]
  · by_cases h2 : (discovery_defaults min_id max_id dur).2.2 < 0
    · constructor
      · simp [uds_discovery, h1, h2]
      · intro _
        simp [uds_discovery, h1, h2]
    · constructor
      · simp [uds_discovery, h1, h2]
      · intro hcon
        rcases hcon with hc | hc
        · exact absurd hc h1
        · exact absurd hc h2

/-- C8 witness: inverted bounds (min 10, max 5) produce the error with an
empty transmit log. -/
theorem uds_discovery_arg_errors_witness :
    (uds_discovery 3 (some 10) (some 5) none none false [] (fun _ => [])).1 = [] :=
  (uds_discovery_arg_errors 3 (some 10) (some 5) none none false []
    (fun _ => [])).2 (Or.inl (by decide))

/-- C5: with `verify` on, a qualifying reply from `resp` while probing `s`
triggers re-probes of s, s-1, ..., s-4 in strictly descending order; when the
first reply arrives at backtrack position k the pair (s - k, resp) is
recorded and the ascending scan resumes at s - k + 1, and when none of the
five re-probes gets a reply nothing is recorded for the hit.  The first run
(`bus`) replies at backtrack position k; the second (`bus2`) never replies to
the re-probes.  The transmit logs exhibit the probe order. -/
theorem uds_discovery_verify_behavior (s resp : Int) (d : List Nat) (k : Nat)
    (bus bus2 : Nat → List Msg)
    (hk : k < 5)
    (hvalid : is_valid_response ⟨resp, d⟩ = true)
    (hwin0 : bus 0 = [⟨resp, d⟩])
    (hfail : ∀ i, i < k → (bus (1 + i)).any is_valid_response = false)
    (hhit : (bus (1 + k)).any is_valid_response = true)
    (hrest : ∀ j, k + 2 ≤ j → (bus j).any is_valid_response = false)
    (hwin0b : bus2 0 = [⟨resp, d⟩])
    (hfailb : ∀ i, i < 5 → (bus2 (1 + i)).any is_valid_response = false) :
    uds_discovery 12 (some s) (some s) (some []) none true [] bus =
      ([s] ++ (verify_ids s).take (k + 1) ++
        (List.range k).map (fun (i : Nat) => s - (k : Int) + 1 + (i : Int)),
       Except.ok [(s - (k : Int), resp)]) ∧
    uds_discovery 12 (some s) (some s) (some []) none true [] bus2 =
      ([s] ++ verify_ids s, Except.ok []) := by
  have hnotlt : ¬ (discovery_defaults (some s) (some s) (none : Option ℚ)).2.1 <
      (discovery_defaults (some s) (some s) (none : Option ℚ)).1 := by
    simp [discovery_defaults]
  have hnotneg : ¬ (discovery_defaults (some s) (some s) (none : Option ℚ)).2.2 < 0 := by
    simp [discovery_defaults]
  have step1 : ∀ b : Nat → List Msg,
      discovery_loop true [] b s 12 ⟨s - 1, [], []⟩ =
        discovery_loop true [] b s 11 (process_msgs true [] b (b 0) ⟨s, [], [s]⟩) := by
    intro b
    rw [discovery_loop, if_pos (show (⟨s - 1, [], []⟩ : ScanState).send_id < s by
      show s - 1 < s
      omega)]
    norm_num
  constructor
  · simp only [uds_discovery, hnotlt, hnotneg, if_false, if_neg hnotlt, if_neg hnotneg]
    simp only [discovery_defaults, Option.getD_some, lt_self_iff_false, if_false,
      Option.getD_none, List.append_nil]
    rw [step1 bus, hwin0]
    have hm : process_msgs true [] bus [⟨resp, d⟩] ⟨s, [], [s]⟩ =
        ⟨s - (k : Int), [(s - (k : Int), resp)], [s] ++ (verify_ids s).take (k + 1)⟩ := by
      rw [process_msgs, if_neg (by simp), if_pos hvalid]
      simp only [List.length_cons, List.length_nil, List.nil_append, zero_add]
      rw [verify_backtrack_hit bus 1 s k hk hfail hhit]
      simp [process_msgs]
    rw [hm]
    rw [discovery_loop_drain true [] bus s 11
      ⟨s - (k : Int), [(s - (k : Int), resp)], [s] ++ (verify_ids s).take (k + 1)⟩
      (show s - (k : Int) ≤ s by omega)
      (by show (s - (s - (k : Int))).toNat ≤ 11; omega)
      (by
        intro j hj
        apply hrest
        simp only [List.length_append, List.length_cons, List.length_nil,
          List.length_take, verify_ids] at hj
        omega)]
    simp only [List.append_assoc]
    rw [show (s - (s - (k : Int))).toNat = k by omega]
  · simp only [uds_discovery, hnotlt, hnotneg, if_false, if_neg hnotlt, if_neg hnotneg]
    simp only [discovery_defaults, Option.getD_some, lt_self_iff_false, if_false,
      Option.getD_none, List.append_nil]
    rw [step1 bus2, hwin0b]
    have hm2 : process_msgs true [] bus2 [⟨resp, d⟩] ⟨s, [], [s]⟩ =
        ⟨s, [], [s] ++ verify_ids s⟩ := by
      rw [process_msgs, if_neg (by simp), if_pos hvalid]
      simp only [List.length_cons, List.length_nil, List.nil_append, zero_add]
      rw [verify_backtrack_fail bus2 1 s hfailb]
      simp [process_msgs]
    rw [hm2, discovery_loop, if_neg (show ¬ (⟨s, [], [s] ++ verify_ids s⟩ :
      ScanState).send_id < s by show ¬ s < s; omega)]

/-- A bus replying to the initial probe of 0x200 from id 0x300 and again at
backtrack position 2 (window 3), silent elsewhere. -/
def busC5hit : Nat → List Msg :=
  fun n =>
    if n = 0 then [⟨768, [0x00, 0x50]⟩]
    else if n = 3 then [⟨768, [0x00, 0x50]⟩] else []

/-- A bus replying only to the initial probe, never to the re-probes. -/
def busC5fail : Nat → List Msg :=
  fun n => if n = 0 then [⟨768, [0x00, 0x50]⟩] else []

/-- C5 witness: at s = 0x200, resp = 0x300 and backtrack position k = 2, the
scanner probes 0x200, re-probes 0x200, 0x1FF, 0x1FE, records (0x1FE, 0x300)
and resumes at 0x1FF. -/
theorem uds_discovery_verify_behavior_witness :
    uds_discovery 12 (some 512) (some 512) (some []) none true [] busC5hit =
      ([512] ++ (verify_ids 512).take (2 + 1) ++
        (List.range 2).map (fun (i : Nat) => 512 - ((2 : Nat) : Int) + 1 + (i : Int)),
       Except.ok [(512 - ((2 : Nat) : Int), 768)]) :=
  (uds_discovery_verify_behavior 512 768 [0x00, 0x50] 2 busC5hit busC5fail
    (by decide)
    (by decide)
    rfl
    (fun i hi => by interval_cases i <;> rfl)
    rfl
    (fun j hj => by
      simp only [busC5hit]
      rw [if_neg (show ¬ j = 0 by omega), if_neg (show ¬ j = 3 by omega)]
      rfl)
    rfl
    (fun i hi => by interval_cases i <;> rfl)).1

end Caribou
